import Mathlib

/-!
Shallow embedding of the PT2258 six-channel volume-controller driver
(`PT2258.py`) and verification of its specified properties.

The driver talks to the chip over I2C.  We model the bus as a pair of an
address-scan result and a write-outcome function, and we record every
externally observable effect (power-on sleep, bus scan, byte write) in an
event trace.  Python exceptions become an error type carried in `Except`;
Python's `bytes([x])` single-byte encoding, which raises `ValueError` for
values outside `[0, 255]`, is modelled explicitly.  Integers are Lean `Int`
(Python ints are unbounded); after the drivers validation all arithmetic
operands are nonnegative, where Lean's `Int` floor division and modulus
agree with Python's `divmod`, and `Int.lor` agrees with Python's `|`.
-/

namespace PT2258Spec

/-- The Python exception kinds the driver raises: `ValueError` (invalid
configuration or argument), `OSError` (device not found), `RuntimeError`
(communication failure). -/
inductive PyError where
  | valueError (msg : String)
  | osError (msg : String)
  | runtimeError (msg : String)
deriving DecidableEq

/-- Externally observable bus-level effects, in the order they happen:
a blocking sleep of `ms` milliseconds, a device-presence scan, or a
single-byte write of byte `b` to 7-bit address `addr`. -/
inductive BusEvent where
  | sleepMs (ms : Nat)
  | scan
  | write (addr : Int) (b : Nat)
deriving DecidableEq

/-- The I2C transport primitive (`machine.I2C`), treated as an opaque
collaborator: `scanResult` is what `scan()` returns, and
`writeResult addr b` is the outcome of `writeto(addr, bytes([b]))` —
either an acknowledgment value or an `OSError` carrying `errno`. -/
structure I2Cbus where
  scanResult : List Int
  writeResult : Int → Nat → Except Int Int

/-- Class constant `__CLEAR_REGISTER` (PT2258.py line 10). -/
def CLEAR_REGISTER : Int := 0xC0

/-- Class constant `__MASTER_VOLUME_10DB` (line 11). -/
def MASTER_VOLUME_10DB : Int := 0xD0

/-- Class constant `__MASTER_VOLUME_1DB` (line 12). -/
def MASTER_VOLUME_1DB : Int := 0xE0

/-- Class constant `__MUTE_REGISTER` (line 13). -/
def MUTE_REGISTER : Int := 0xF8

/-- Channel-register constants, 10 dB (coarse) side (lines 16-21). -/
def C1_10DB : Int := 0x80

/-- Channel 2 coarse register constant. -/
def C2_10DB : Int := 0x40

/-- Channel 3 coarse register constant. -/
def C3_10DB : Int := 0x00

/-- Channel 4 coarse register constant. -/
def C4_10DB : Int := 0x20

/-- Channel 5 coarse register constant. -/
def C5_10DB : Int := 0x60

/-- Channel 6 coarse register constant. -/
def C6_10DB : Int := 0xA0

/-- Channel-register constants, 1 dB (fine) side (lines 24-29). -/
def C1_1DB : Int := 0x90

/-- Channel 2 fine register constant. -/
def C2_1DB : Int := 0x50

/-- Channel 3 fine register constant. -/
def C3_1DB : Int := 0x10

/-- Channel 4 fine register constant. -/
def C4_1DB : Int := 0x30

/-- Channel 5 fine register constant. -/
def C5_1DB : Int := 0x70

/-- Channel 6 fine register constant. -/
def C6_1DB : Int := 0xB0

/-- The channel register tuple built in `__init__` (lines 55-62):
index `channel` (0..5) maps to that channel's (10 dB, 1 dB)
instruction-prefix byte pair. -/
def CHANNEL_REGISTERS : List (Int × Int) :=
  [(C1_10DB, C1_1DB), (C2_10DB, C2_1DB), (C3_10DB, C3_1DB),
   (C4_10DB, C4_1DB), (C5_10DB, C5_1DB), (C6_10DB, C6_1DB)]

/-- Driver instance state: the stored bus handle `__I2C`, the 7-bit
address `__PT2258_ADDR`, the per-instance `__CHANNEL_REGISTERS` tuple,
and the `__last_ack` scalar. -/
structure PT2258 where
  I2C : I2Cbus
  PT2258_ADDR : Int
  CHANNEL_REGISTERS : List (Int × Int)
  last_ack : Int

/-- Python `bytes([x])`: succeeds with the byte iff `0 ≤ x < 256`,
otherwise raises `ValueError`. -/
def bytesSingle (x : Int) : Except PyError Nat :=
  if 0 ≤ x ∧ x < 256 then .ok x.toNat
  else .error (.valueError "bytes must be in range(0, 256)")

/-- Method `__write_pt2258` (lines 70-92): encode the instruction as a single
byte, write it to the device address, return the acknowledgment; an
`OSError` from the bus becomes a `RuntimeError`, with `errno == 5`
distinguished from any other errno by its message.  The returned trace
records the write attempt (the transaction happened even when the bus
reported a failure). -/
def writePT2258 (p : PT2258) (write_data : Int) :
    Except PyError Int × List BusEvent :=
  match bytesSingle write_data with
  | .error e => (.error e, [])
  | .ok b =>
    match p.I2C.writeResult p.PT2258_ADDR b with
    | .ok ack => (.ok ack, [.write p.PT2258_ADDR b])
    | .error errno =>
        (.error (.runtimeError
          (if errno = 5 then
            "Communication error with the PT2258 during the operation."
          else
            "Communication error with the PT2258. Error message: OSError")),
         [.write p.PT2258_ADDR b])

/-- Method `__initialize_pt2258` (lines 94-115): sleep 300 ms, scan the bus,
fail with `OSError` if the stored 7-bit address is absent, else write the
clear-register instruction `0xC0`. -/
def initialize_pt2258 (p : PT2258) : Except PyError PT2258 × List BusEvent :=
  if p.PT2258_ADDR ∈ p.I2C.scanResult then
    match writePT2258 p CLEAR_REGISTER with
    | (.ok _, ev) => (.ok p, [.sleepMs 300, .scan] ++ ev)
    | (.error e, ev) => (.error e, [.sleepMs 300, .scan] ++ ev)
  else
    (.error (.osError "PT2258 not found on the I2C bus."), [.sleepMs 300, .scan])

/-- Constructor `__init__` (lines 31-68): reject a missing port or an illegal address
with `ValueError` before any delay or bus access; otherwise store the bus,
the right-shifted address and the channel table, zero `__last_ack`, and
run the initialization sequence. -/
def PT2258_init (port : Option I2Cbus) (address : Int) :
    Except PyError PT2258 × List BusEvent :=
  match port with
  | none =>
      (.error (.valueError "The port I2C object is required to initialize PT2258."), [])
  | some bus =>
    if address ∈ ([0x8C, 0x88, 0x84, 0x80] : List Int) then
      initialize_pt2258
        { I2C := bus
          PT2258_ADDR := address >>> 1
          CHANNEL_REGISTERS := PT2258Spec.CHANNEL_REGISTERS
          last_ack := 0 }
    else
      (.error (.valueError "Invalid PT2258 device address. It should be 0x8C, 0x88, 0x84, or 0x80."), [])

/-- The attenuation split `divmod(79 - volume, 10)` used by both
`master_volume` (line 131) and `channel_volume` (line 166).  Lean's `Int`
division/modulus coincide with Python's `divmod` here (positive divisor,
and the dividend is nonnegative once the volume is validated). -/
def att_split (volume : Int) : Int × Int :=
  ((79 - volume) / 10, (79 - volume) % 10)

/-- Method `master_volume` (lines 117-141): validate, split the attenuation,
write the coarse instruction `0xD0 | att_10db`, and only if its
acknowledgment is truthy (nonzero) write the fine instruction
`0xE0 | att_1db`; return the final `__last_ack`. -/
def PT2258.master_volume (p : PT2258) (volume : Int) :
    Except PyError Int × PT2258 × List BusEvent :=
  if 0 ≤ volume ∧ volume ≤ 79 then
    match writePT2258 p (Int.lor MASTER_VOLUME_10DB (att_split volume).1) with
    | (.error e, ev1) => (.error e, p, ev1)
    | (.ok a1, ev1) =>
      if a1 ≠ 0 then
        match writePT2258 { p with last_ack := a1 }
            (Int.lor MASTER_VOLUME_1DB (att_split volume).2) with
        | (.error e, ev2) => (.error e, { p with last_ack := a1 }, ev1 ++ ev2)
        | (.ok a2, ev2) => (.ok a2, { p with last_ack := a2 }, ev1 ++ ev2)
      else (.ok a1, { p with last_ack := a1 }, ev1)
  else
    (.error (.valueError "The master volume should be within the range of 0 to 79."), p, [])

/-- Method `channel_volume` (lines 143-172): validate volume then channel, look
up the channel's (10 dB, 1 dB) register pair, and perform the same
coarse-then-conditional-fine write sequence as `master_volume`.  The
table lookup uses `getD`; validation guarantees the index is in range for
the six-entry table the constructor installs. -/
def PT2258.channel_volume (p : PT2258) (channel volume : Int) :
    Except PyError Int × PT2258 × List BusEvent :=
  if 0 ≤ volume ∧ volume ≤ 79 then
    if 0 ≤ channel ∧ channel ≤ 5 then
      match writePT2258 p
          (Int.lor (p.CHANNEL_REGISTERS.getD channel.toNat (0, 0)).1 (att_split volume).1) with
      | (.error e, ev1) => (.error e, p, ev1)
      | (.ok a1, ev1) =>
        if a1 ≠ 0 then
          match writePT2258 { p with last_ack := a1 }
              (Int.lor (p.CHANNEL_REGISTERS.getD channel.toNat (0, 0)).2 (att_split volume).2) with
          | (.error e, ev2) => (.error e, { p with last_ack := a1 }, ev1 ++ ev2)
          | (.ok a2, ev2) => (.ok a2, { p with last_ack := a2 }, ev1 ++ ev2)
        else (.ok a1, { p with last_ack := a1 }, ev1)
    else
      (.error (.valueError "Invalid channel index. Channels should be within the range of 0 to 5."), p, [])
  else
    (.error (.valueError "The volume should be within the range of 0 to 79."), p, [])

/-- A Python value passed as the `status` argument of `mute`: either a
genuine `bool` or some other (integer) value, so that the
`isinstance(status, bool)` check is expressible. -/
inductive PyVal where
  | pyBool (b : Bool)
  | pyInt (n : Int)
deriving DecidableEq

/-- Method `mute` (lines 174-191): reject any non-boolean argument with
`ValueError`, else write the single instruction `0xF8 | status` (a
Python `bool` coerces to 0 or 1 under `|`) and return its
acknowledgment. -/
def PT2258.mute (p : PT2258) (status : PyVal) :
    Except PyError Int × PT2258 × List BusEvent :=
  match status with
  | .pyBool b =>
    match writePT2258 p (Int.lor MUTE_REGISTER (if b then 1 else 0)) with
    | (.error e, ev) => (.error e, p, ev)
    | (.ok a, ev) => (.ok a, { p with last_ack := a }, ev)
  | .pyInt _ =>
      (.error (.valueError "Invalid mute status value. It should be a boolean (True or False)."), p, [])

/-- Whether an operation outcome is a Python `ValueError`
(the specified `InvalidArgumentError` / `ConfigurationError`). -/
def isValueError : Except PyError Int → Bool
  | .error (.valueError _) => true
  | _ => false

/-- A concrete bus for witnesses: the device at 7-bit address 0x44 is
present and every write is acknowledged with 1. -/
def busOK : I2Cbus :=
  { scanResult := [0x44], writeResult := fun _ _ => .ok 1 }

/-- A concrete bus whose writes return the falsy acknowledgment 0. -/
def busZero : I2Cbus :=
  { scanResult := [0x44], writeResult := fun _ _ => .ok 0 }

/-- A concrete bus whose writes return acknowledgment 7. -/
def busAck7 : I2Cbus :=
  { scanResult := [0x44], writeResult := fun _ _ => .ok 7 }

/-- A concrete bus on which every write raises `OSError` with errno 5. -/
def busErr5 : I2Cbus :=
  { scanResult := [0x44], writeResult := fun _ _ => .error 5 }

/-- A concrete driver instance over `busOK`, as the constructor builds it
for address 0x88. -/
def p0 : PT2258 :=
  { I2C := busOK, PT2258_ADDR := 0x44,
    CHANNEL_REGISTERS := CHANNEL_REGISTERS, last_ack := 0 }

/-- A concrete driver instance over `busZero`. -/
def p0z : PT2258 :=
  { I2C := busZero, PT2258_ADDR := 0x44,
    CHANNEL_REGISTERS := CHANNEL_REGISTERS, last_ack := 0 }

/-- A concrete driver instance over `busErr5`. -/
def p0e : PT2258 :=
  { I2C := busErr5, PT2258_ADDR := 0x44,
    CHANNEL_REGISTERS := CHANNEL_REGISTERS, last_ack := 0 }

/-! ### Helper lemmas -/

/-- For small operands, `Nat.lor` of a 16-multiple with a nibble is
addition. -/
lemma nat_lor_sixteen : ∀ m k : Fin 16, Nat.lor (16 * m.val) k.val = 16 * m.val + k.val := by
  decide

/-- Applying `Int.lor` to nonnegative integers is `Nat.lor` of the payloads. -/
lemma int_lor_natCast (a b : Nat) :
    Int.lor (a : Int) (b : Int) = ((Nat.lor a b : Nat) : Int) := rfl

/-- A register prefix that is a multiple of 16 below 256, `or`-ed with a
value below 16, is their sum. -/
lemma int_lor_reg (m : Nat) (P c : Int) (hm : m < 16) (hP : P = ((16 * m : Nat) : Int))
    (h0 : 0 ≤ c) (hc : c < 16) : Int.lor P c = P + c := by
  obtain ⟨k, hk, rfl⟩ : ∃ k : Nat, k < 16 ∧ (k : Int) = c := ⟨c.toNat, by omega, by omega⟩
  subst hP
  rw [int_lor_natCast, nat_lor_sixteen ⟨m, hm⟩ ⟨k, hk⟩]
  push_cast
  ring

/-- The coarse attenuation is in [0, 7] for a valid volume. -/
lemma att_split_fst_range (volume : Int) (h0 : 0 ≤ volume) (h79 : volume ≤ 79) :
    0 ≤ (att_split volume).1 ∧ (att_split volume).1 ≤ 7 := by
  unfold att_split
  constructor <;> omega

/-- The fine attenuation is in [0, 9]. -/
lemma att_split_snd_range (volume : Int) :
    0 ≤ (att_split volume).2 ∧ (att_split volume).2 ≤ 9 := by
  unfold att_split
  constructor <;> omega

/-- A register prefix that is a multiple of 16 below 256, `or`-ed with a
value below 16, stays in the byte range. -/
lemma lor_reg_range (m : Nat) (P c : Int) (hm : m < 16) (hP : P = ((16 * m : Nat) : Int))
    (h0 : 0 ≤ c) (hc : c < 16) : 0 ≤ Int.lor P c ∧ Int.lor P c < 256 := by
  rw [int_lor_reg m P c hm hP h0 hc]
  subst hP
  push_cast
  omega

/-- An in-range instruction issues exactly the one write event. -/
lemma writePT2258_trace (p : PT2258) (wd : Int) (h : 0 ≤ wd ∧ wd < 256) :
    (writePT2258 p wd).2 = [.write p.PT2258_ADDR wd.toNat] := by
  unfold writePT2258 bytesSingle
  rw [if_pos h]
  cases hw : p.I2C.writeResult p.PT2258_ADDR wd.toNat <;> simp [hw]

/-- An in-range instruction whose bus transaction acknowledges with `a`
returns `a` and the one write event. -/
lemma writePT2258_ok (p : PT2258) (wd a : Int) (h : 0 ≤ wd ∧ wd < 256)
    (hw : p.I2C.writeResult p.PT2258_ADDR wd.toNat = .ok a) :
    writePT2258 p wd = (.ok a, [.write p.PT2258_ADDR wd.toNat]) := by
  unfold writePT2258 bytesSingle
  rw [if_pos h]
  simp [hw]

/-- An in-range instruction never produces a `ValueError`. -/
lemma writePT2258_no_valueError (p : PT2258) (wd : Int) (h : 0 ≤ wd ∧ wd < 256)
    (m : String) : (writePT2258 p wd).1 ≠ .error (.valueError m) := by
  unfold writePT2258 bytesSingle
  rw [if_pos h]
  cases hw : p.I2C.writeResult p.PT2258_ADDR wd.toNat <;> simp [hw]

/-- The instruction bytes `channel_volume` builds from the constructor's
channel table are in the byte range. -/
lemma table_bytes (channel volume : Int)
    (hc : 0 ≤ channel ∧ channel ≤ 5) (hv : 0 ≤ volume ∧ volume ≤ 79) :
    (0 ≤ Int.lor (CHANNEL_REGISTERS.getD channel.toNat (0, 0)).1 (att_split volume).1 ∧
      Int.lor (CHANNEL_REGISTERS.getD channel.toNat (0, 0)).1 (att_split volume).1 < 256) ∧
    (0 ≤ Int.lor (CHANNEL_REGISTERS.getD channel.toNat (0, 0)).2 (att_split volume).2 ∧
      Int.lor (CHANNEL_REGISTERS.getD channel.toNat (0, 0)).2 (att_split volume).2 < 256) := by
  have h1 := att_split_fst_range volume hv.1 hv.2
  have h2 := att_split_snd_range volume
  obtain ⟨hc1, hc2⟩ := hc
  interval_cases channel <;>
    simp only [CHANNEL_REGISTERS, C1_10DB, C2_10DB, C3_10DB, C4_10DB, C5_10DB, C6_10DB,
      C1_1DB, C2_1DB, C3_1DB, C4_1DB, C5_1DB, C6_1DB, Int.toNat, List.getD] <;>
    norm_num <;>
    constructor
  · exact lor_reg_range 8 _ _ (by norm_num) (by norm_num) h1.1 (by omega)
  · exact lor_reg_range 9 _ _ (by norm_num) (by norm_num) h2.1 (by omega)
  · exact lor_reg_range 4 _ _ (by norm_num) (by norm_num) h1.1 (by omega)
  · exact lor_reg_range 5 _ _ (by norm_num) (by norm_num) h2.1 (by omega)
  · exact lor_reg_range 0 _ _ (by norm_num) (by norm_num) h1.1 (by omega)
  · exact lor_reg_range 1 _ _ (by norm_num) (by norm_num) h2.1 (by omega)
  · exact lor_reg_range 2 _ _ (by norm_num) (by norm_num) h1.1 (by omega)
  · exact lor_reg_range 3 _ _ (by norm_num) (by norm_num) h2.1 (by omega)
  · exact lor_reg_range 6 _ _ (by norm_num) (by norm_num) h1.1 (by omega)
  · exact lor_reg_range 7 _ _ (by norm_num) (by norm_num) h2.1 (by omega)
  · exact lor_reg_range 10 _ _ (by norm_num) (by norm_num) h1.1 (by omega)
  · exact lor_reg_range 11 _ _ (by norm_num) (by norm_num) h2.1 (by omega)

/-- Method `master_volume` leaves every field but `last_ack` unchanged. -/
lemma master_volume_frame (p : PT2258) (volume : Int) :
    ((p.master_volume volume).2.1).I2C = p.I2C ∧
    ((p.master_volume volume).2.1).PT2258_ADDR = p.PT2258_ADDR ∧
    ((p.master_volume volume).2.1).CHANNEL_REGISTERS = p.CHANNEL_REGISTERS := by
  unfold PT2258.master_volume
  repeat' split
  all_goals simp

/-- Method `channel_volume` leaves every field but `last_ack` unchanged. -/
lemma channel_volume_frame (p : PT2258) (channel volume : Int) :
    ((p.channel_volume channel volume).2.1).I2C = p.I2C ∧
    ((p.channel_volume channel volume).2.1).PT2258_ADDR = p.PT2258_ADDR ∧
    ((p.channel_volume channel volume).2.1).CHANNEL_REGISTERS = p.CHANNEL_REGISTERS := by
  unfold PT2258.channel_volume
  repeat' split
  all_goals simp

/-- Method `mute` leaves every field but `last_ack` unchanged. -/
lemma mute_frame (p : PT2258) (s : PyVal) :
    ((p.mute s).2.1).I2C = p.I2C ∧
    ((p.mute s).2.1).PT2258_ADDR = p.PT2258_ADDR ∧
    ((p.mute s).2.1).CHANNEL_REGISTERS = p.CHANNEL_REGISTERS := by
  unfold PT2258.mute
  repeat' split
  all_goals simp

/-- Constructing with a present port and a legal address reduces to the
initialization sequence on the freshly built driver state. -/
lemma PT2258_init_some (bus : I2Cbus) (address : Int)
    (ha : address ∈ ([0x8C, 0x88, 0x84, 0x80] : List Int)) :
    PT2258_init (some bus) address =
      initialize_pt2258
        { I2C := bus, PT2258_ADDR := address >>> 1,
          CHANNEL_REGISTERS := PT2258Spec.CHANNEL_REGISTERS, last_ack := 0 } := by
  have ha2 : address = 0x8C ∨ address = 0x88 ∨ address = 0x84 ∨ address = 0x80 := by
    simpa using ha
  simp only [PT2258_init]
  split
  · rfl
  · rename_i hno
    simp at hno
    omega

/-- Constructing with an illegal address fails at once with `ValueError`
and an empty effect trace. -/
lemma PT2258_init_illegal (bus : I2Cbus) (address : Int)
    (ha : address ∉ ([0x8C, 0x88, 0x84, 0x80] : List Int)) :
    PT2258_init (some bus) address =
      (.error (.valueError "Invalid PT2258 device address. It should be 0x8C, 0x88, 0x84, or 0x80."),
       []) := by
  have ha2 : ¬(address = 0x8C ∨ address = 0x88 ∨ address = 0x84 ∨ address = 0x80) := by
    simpa using ha
  simp only [PT2258_init]
  split
  · rename_i hyes
    simp at hyes
    omega
  · rfl

/-- The trace of a valid `channel_volume` call on a driver carrying the
constructor's table: either just the coarse write, or the coarse write
followed by the fine write. -/
lemma channel_volume_trace (p : PT2258) (channel volume : Int)
    (hc : 0 ≤ channel ∧ channel ≤ 5) (hv : 0 ≤ volume ∧ volume ≤ 79)
    (ht : p.CHANNEL_REGISTERS = CHANNEL_REGISTERS) :
    (p.channel_volume channel volume).2.2 =
      [.write p.PT2258_ADDR
        (Int.lor (p.CHANNEL_REGISTERS.getD channel.toNat (0, 0)).1 (att_split volume).1).toNat] ∨
    (p.channel_volume channel volume).2.2 =
      [.write p.PT2258_ADDR
        (Int.lor (p.CHANNEL_REGISTERS.getD channel.toNat (0, 0)).1 (att_split volume).1).toNat,
       .write p.PT2258_ADDR
        (Int.lor (p.CHANNEL_REGISTERS.getD channel.toNat (0, 0)).2 (att_split volume).2).toNat] := by
  have hb := table_bytes channel volume hc hv
  rw [← ht] at hb
  unfold PT2258.channel_volume
  rw [if_pos hv, if_pos hc]
  generalize hg1 :
    Int.lor (p.CHANNEL_REGISTERS.getD channel.toNat (0, 0)).1 (att_split volume).1 = w1 at hb ⊢
  generalize hg2 :
    Int.lor (p.CHANNEL_REGISTERS.getD channel.toNat (0, 0)).2 (att_split volume).2 = w2 at hb ⊢
  cases hw1 : writePT2258 p w1 with
  | mk r1 e1 =>
    have he1 : e1 = [.write p.PT2258_ADDR w1.toNat] := by
      have h := writePT2258_trace p w1 hb.1
      rw [hw1] at h
      exact h
    cases r1 with
    | error e =>
      left
      simp [hw1, he1]
    | ok a1 =>
      by_cases ha : a1 = 0
      · left
        subst ha
        simp [hw1, he1]
      · cases hw2 : writePT2258 { p with last_ack := a1 } w2 with
        | mk r2 e2 =>
          have he2 : e2 = [.write p.PT2258_ADDR w2.toNat] := by
            have h := writePT2258_trace { p with last_ack := a1 } w2 hb.2
            rw [hw2] at h
            exact h
          right
          cases r2 <;> simp [hw1, hw2, he1, he2, ha]

/-- The two instruction bytes `master_volume` builds are in the byte
range. -/
lemma master_volume_bytes (volume : Int) (hv : 0 ≤ volume ∧ volume ≤ 79) :
    (0 ≤ Int.lor MASTER_VOLUME_10DB (att_split volume).1 ∧
      Int.lor MASTER_VOLUME_10DB (att_split volume).1 < 256) ∧
    (0 ≤ Int.lor MASTER_VOLUME_1DB (att_split volume).2 ∧
      Int.lor MASTER_VOLUME_1DB (att_split volume).2 < 256) := by
  have h1 := att_split_fst_range volume hv.1 hv.2
  have h2 := att_split_snd_range volume
  constructor
  · exact lor_reg_range 13 _ _ (by norm_num) (by decide) h1.1 (by omega)
  · exact lor_reg_range 14 _ _ (by norm_num) (by decide) h2.1 (by omega)

/-- The mute instruction byte is in the byte range. -/
lemma mute_bytes (b : Bool) :
    0 ≤ Int.lor MUTE_REGISTER (if b then 1 else 0) ∧
      Int.lor MUTE_REGISTER (if b then 1 else 0) < 256 := by
  cases b <;> decide

/-- The trace of a valid `master_volume` call: either just the coarse
write, or the coarse write followed by the fine write. -/
lemma master_volume_trace (p : PT2258) (volume : Int)
    (hv : 0 ≤ volume ∧ volume ≤ 79) :
    (p.master_volume volume).2.2 =
      [.write p.PT2258_ADDR (Int.lor MASTER_VOLUME_10DB (att_split volume).1).toNat] ∨
    (p.master_volume volume).2.2 =
      [.write p.PT2258_ADDR (Int.lor MASTER_VOLUME_10DB (att_split volume).1).toNat,
       .write p.PT2258_ADDR (Int.lor MASTER_VOLUME_1DB (att_split volume).2).toNat] := by
  have hb := master_volume_bytes volume hv
  unfold PT2258.master_volume
  rw [if_pos hv]
  generalize Int.lor MASTER_VOLUME_10DB (att_split volume).1 = w1 at hb ⊢
  generalize Int.lor MASTER_VOLUME_1DB (att_split volume).2 = w2 at hb ⊢
  cases hw1 : writePT2258 p w1 with
  | mk r1 e1 =>
    have he1 : e1 = [.write p.PT2258_ADDR w1.toNat] := by
      have h := writePT2258_trace p w1 hb.1
      rw [hw1] at h
      exact h
    cases r1 with
    | error e =>
      left
      simp [hw1, he1]
    | ok a1 =>
      by_cases ha : a1 = 0
      · left
        subst ha
        simp [hw1, he1]
      · cases hw2 : writePT2258 { p with last_ack := a1 } w2 with
        | mk r2 e2 =>
          have he2 : e2 = [.write p.PT2258_ADDR w2.toNat] := by
            have h := writePT2258_trace { p with last_ack := a1 } w2 hb.2
            rw [hw2] at h
            exact h
          right
          cases r2 <;> simp [hw1, hw2, he1, he2, ha]

/-- The trace of a `mute` call with a genuine boolean: exactly the one
mute-instruction write. -/
lemma mute_trace (p : PT2258) (b : Bool) :
    (p.mute (.pyBool b)).2.2 =
      [.write p.PT2258_ADDR (Int.lor MUTE_REGISTER (if b then 1 else 0)).toNat] := by
  have hb := mute_bytes b
  simp only [PT2258.mute]
  generalize Int.lor MUTE_REGISTER (if b then 1 else 0) = w at hb ⊢
  cases hw : writePT2258 p w with
  | mk r e =>
    have he : e = [.write p.PT2258_ADDR w.toNat] := by
      have h := writePT2258_trace p w hb
      rw [hw] at h
      exact h
    cases r <;> simp [hw, he]

/-- A valid `master_volume` call never results in a `ValueError`. -/
lemma master_volume_no_valueError (p : PT2258) (volume : Int)
    (hv : 0 ≤ volume ∧ volume ≤ 79) (m : String) :
    (p.master_volume volume).1 ≠ .error (.valueError m) := by
  have hb := master_volume_bytes volume hv
  unfold PT2258.master_volume
  rw [if_pos hv]
  generalize Int.lor MASTER_VOLUME_10DB (att_split volume).1 = w1 at hb ⊢
  generalize Int.lor MASTER_VOLUME_1DB (att_split volume).2 = w2 at hb ⊢
  cases hw1 : writePT2258 p w1 with
  | mk r1 e1 =>
    cases r1 with
    | error e =>
      have h := writePT2258_no_valueError p w1 hb.1 m
      rw [hw1] at h
      simpa using h
    | ok a1 =>
      by_cases ha : a1 = 0
      · subst ha
        simp
      · cases hw2 : writePT2258 { p with last_ack := a1 } w2 with
        | mk r2 e2 =>
          cases r2 with
          | error e =>
            have h := writePT2258_no_valueError { p with last_ack := a1 } w2 hb.2 m
            rw [hw2] at h
            simp [ha, hw2]
            simpa using h
          | ok a2 =>
            simp [ha, hw2]

/-- A valid `channel_volume` call on a driver carrying the constructor's
table never results in a `ValueError`. -/
lemma channel_volume_no_valueError (p : PT2258) (channel volume : Int)
    (hc : 0 ≤ channel ∧ channel ≤ 5) (hv : 0 ≤ volume ∧ volume ≤ 79)
    (ht : p.CHANNEL_REGISTERS = CHANNEL_REGISTERS) (m : String) :
    (p.channel_volume channel volume).1 ≠ .error (.valueError m) := by
  have hb := table_bytes channel volume hc hv
  rw [← ht] at hb
  unfold PT2258.channel_volume
  rw [if_pos hv, if_pos hc]
  generalize
    Int.lor (p.CHANNEL_REGISTERS.getD channel.toNat (0, 0)).1 (att_split volume).1 = w1 at hb ⊢
  generalize
    Int.lor (p.CHANNEL_REGISTERS.getD channel.toNat (0, 0)).2 (att_split volume).2 = w2 at hb ⊢
  cases hw1 : writePT2258 p w1 with
  | mk r1 e1 =>
    cases r1 with
    | error e =>
      have h := writePT2258_no_valueError p w1 hb.1 m
      rw [hw1] at h
      simpa using h
    | ok a1 =>
      by_cases ha : a1 = 0
      · subst ha
        simp
      · cases hw2 : writePT2258 { p with last_ack := a1 } w2 with
        | mk r2 e2 =>
          cases r2 with
          | error e =>
            have h := writePT2258_no_valueError { p with last_ack := a1 } w2 hb.2 m
            rw [hw2] at h
            simp [ha, hw2]
            simpa using h
          | ok a2 =>
            simp [ha, hw2]

/-- A `mute` call with a genuine boolean never results in a
`ValueError`. -/
lemma mute_no_valueError (p : PT2258) (b : Bool) (m : String) :
    (p.mute (.pyBool b)).1 ≠ .error (.valueError m) := by
  have hb := mute_bytes b
  simp only [PT2258.mute]
  generalize Int.lor MUTE_REGISTER (if b then 1 else 0) = w at hb ⊢
  cases hw : writePT2258 p w with
  | mk r e =>
    cases r with
    | error e2 =>
      have h := writePT2258_no_valueError p w hb m
      rw [hw] at h
      simp [hw]
      simpa using h
    | ok a =>
      simp [hw]

/-- Construction with a legal address produces either the two-event trace
(absent device) or the three-event trace ending in the clear write, and
never a `ValueError`. -/
lemma init_trace (bus : I2Cbus) (address : Int)
    (ha : address ∈ ([0x8C, 0x88, 0x84, 0x80] : List Int)) :
    ((PT2258_init (some bus) address).2 = [.sleepMs 300, .scan] ∨
     (PT2258_init (some bus) address).2 =
       [.sleepMs 300, .scan, .write (address >>> 1) 0xC0]) ∧
    ∀ m, (PT2258_init (some bus) address).1 ≠ .error (.valueError m) := by
  rw [PT2258_init_some bus address ha]
  unfold initialize_pt2258
  split
  · cases hw : writePT2258
        { I2C := bus, PT2258_ADDR := address >>> 1,
          CHANNEL_REGISTERS := PT2258Spec.CHANNEL_REGISTERS, last_ack := 0 }
        CLEAR_REGISTER with
    | mk r e =>
      have he : e = [.write (address >>> 1) 0xC0] := by
        have h2 := writePT2258_trace
          { I2C := bus, PT2258_ADDR := address >>> 1,
            CHANNEL_REGISTERS := PT2258Spec.CHANNEL_REGISTERS, last_ack := 0 }
          CLEAR_REGISTER (by unfold CLEAR_REGISTER; omega)
        rw [hw] at h2
        exact h2
      constructor
      · right
        cases r <;> simp [hw, he]
      · intro m
        cases r with
        | error e2 =>
          have h := writePT2258_no_valueError
            { I2C := bus, PT2258_ADDR := address >>> 1,
              CHANNEL_REGISTERS := PT2258Spec.CHANNEL_REGISTERS, last_ack := 0 }
            CLEAR_REGISTER (by unfold CLEAR_REGISTER; omega) m
          rw [hw] at h
          simp [hw]
          simpa using h
        | ok a =>
          simp [hw]
  · exact ⟨Or.inl rfl, by intro m; simp⟩

/-! ### Claim theorems -/

/-- C1: for every volume in [0,79] the attenuation split
`divmod(79 - volume, 10)` used by `master_volume` and `channel_volume`
has coarse part in [0,7], fine part in [0,9], recombines to
`79 - volume`, and takes the values (7,9), (0,0), (3,9) at volumes 0, 79
and 40 respectively. -/
theorem C1_att_split_correct (volume : Int) (h : 0 ≤ volume ∧ volume ≤ 79) :
    0 ≤ (att_split volume).1 ∧ (att_split volume).1 ≤ 7 ∧
    0 ≤ (att_split volume).2 ∧ (att_split volume).2 ≤ 9 ∧
    (att_split volume).1 * 10 + (att_split volume).2 = 79 - volume ∧
    att_split 0 = (7, 9) ∧ att_split 79 = (0, 0) ∧ att_split 40 = (3, 9) := by
  unfold att_split
  refine ⟨by omega, by omega, by omega, by omega, by omega, by decide, by decide, by decide⟩

/-- Witness for C1 at volume 40. -/
theorem C1_att_split_correct_witness :
    (0 ≤ (40 : Int) ∧ (40 : Int) ≤ 79) ∧
    (0 ≤ (att_split 40).1 ∧ (att_split 40).1 ≤ 7 ∧
     0 ≤ (att_split 40).2 ∧ (att_split 40).2 ≤ 9 ∧
     (att_split 40).1 * 10 + (att_split 40).2 = 79 - 40 ∧
     att_split 0 = (7, 9) ∧ att_split 79 = (0, 0) ∧ att_split 40 = (3, 9)) :=
  ⟨by decide, C1_att_split_correct 40 (by decide)⟩

/-- C2: in both `master_volume` and `channel_volume` the coarse write is
issued strictly before the fine write; a falsy (zero) coarse
acknowledgment suppresses the fine write and the operation returns the
coarse result, while a truthy coarse acknowledgment is followed by the
fine write whose result the operation returns. -/
theorem C2_short_circuit (p : PT2258) (volume channel a1 : Int)
    (ev1 : List BusEvent) (hv : 0 ≤ volume ∧ volume ≤ 79) :
    (writePT2258 p (Int.lor MASTER_VOLUME_10DB (att_split volume).1) = (.ok a1, ev1) →
      (a1 = 0 →
        p.master_volume volume = (.ok a1, { p with last_ack := a1 }, ev1)) ∧
      (∀ a2 ev2, a1 ≠ 0 →
        writePT2258 { p with last_ack := a1 }
            (Int.lor MASTER_VOLUME_1DB (att_split volume).2) = (.ok a2, ev2) →
        p.master_volume volume = (.ok a2, { p with last_ack := a2 }, ev1 ++ ev2))) ∧
    (0 ≤ channel ∧ channel ≤ 5 →
      writePT2258 p
          (Int.lor (p.CHANNEL_REGISTERS.getD channel.toNat (0, 0)).1 (att_split volume).1) =
        (.ok a1, ev1) →
      (a1 = 0 →
        p.channel_volume channel volume = (.ok a1, { p with last_ack := a1 }, ev1)) ∧
      (∀ a2 ev2, a1 ≠ 0 →
        writePT2258 { p with last_ack := a1 }
            (Int.lor (p.CHANNEL_REGISTERS.getD channel.toNat (0, 0)).2 (att_split volume).2) =
          (.ok a2, ev2) →
        p.channel_volume channel volume = (.ok a2, { p with last_ack := a2 }, ev1 ++ ev2))) := by
  constructor
  · intro h1
    constructor
    · intro ha1
      subst ha1
      simp only [PT2258.master_volume, if_pos hv, h1]
      simp
    · intro a2 ev2 ha1 h2
      simp only [PT2258.master_volume, if_pos hv, h1, if_pos ha1, h2]
  · intro hc h1
    constructor
    · intro ha1
      subst ha1
      simp only [PT2258.channel_volume, if_pos hv, if_pos hc, h1]
      simp
    · intro a2 ev2 ha1 h2
      simp only [PT2258.channel_volume, if_pos hv, if_pos hc, h1, if_pos ha1, h2]

/-- Witness for C2: a master-volume call at volume 40 on a bus that
acknowledges with 1 issues both writes and returns the fine result; a
channel-volume call at channel 2 on a bus that acknowledges with 0 issues
only the coarse write and returns 0. -/
theorem C2_short_circuit_witness :
    (0 ≤ (40 : Int) ∧ (40 : Int) ≤ 79) ∧
    writePT2258 p0 (Int.lor MASTER_VOLUME_10DB (att_split 40).1) =
      (.ok 1, [.write 0x44 0xD3]) ∧
    ((1 : Int) ≠ 0) ∧
    writePT2258 { p0 with last_ack := 1 } (Int.lor MASTER_VOLUME_1DB (att_split 40).2) =
      (.ok 1, [.write 0x44 0xE9]) ∧
    p0.master_volume 40 =
      (.ok 1, { p0 with last_ack := 1 }, [.write 0x44 0xD3, .write 0x44 0xE9]) ∧
    writePT2258 p0z
        (Int.lor (p0z.CHANNEL_REGISTERS.getD (2 : Int).toNat (0, 0)).1 (att_split 40).1) =
      (.ok 0, [.write 0x44 0x03]) ∧
    p0z.channel_volume 2 40 = (.ok 0, { p0z with last_ack := 0 }, [.write 0x44 0x03]) :=
  ⟨by decide, by rfl, by decide, by rfl,
   ((C2_short_circuit p0 40 2 1 [.write 0x44 0xD3] (by decide)).1 (by rfl)).2 1
     [.write 0x44 0xE9] (by decide) (by rfl),
   by rfl,
   ((C2_short_circuit p0z 40 2 0 [.write 0x44 0x03] (by decide)).2 (by decide) (by rfl)).1 rfl⟩

/-- C3: the channel register table holds exactly the six hardware byte
pairs, the constructor installs it, no operation mutates it, and a valid
`channel_volume` call derives both of its instruction bytes from the pair
at index `channel`. -/
theorem C3_channel_registers_table (p : PT2258) (channel volume : Int)
    (hc : 0 ≤ channel ∧ channel ≤ 5) (hv : 0 ≤ volume ∧ volume ≤ 79)
    (ht : p.CHANNEL_REGISTERS = CHANNEL_REGISTERS) :
    CHANNEL_REGISTERS =
      [((0x80 : Int), (0x90 : Int)), (0x40, 0x50), (0x00, 0x10),
       (0x20, 0x30), (0x60, 0x70), (0xA0, 0xB0)] ∧
    (∀ bus address q ev, PT2258_init (some bus) address = (.ok q, ev) →
      q.CHANNEL_REGISTERS = CHANNEL_REGISTERS) ∧
    (∀ q volume2, ((PT2258.master_volume q volume2).2.1).CHANNEL_REGISTERS =
      q.CHANNEL_REGISTERS) ∧
    (∀ q channel2 volume2,
      ((PT2258.channel_volume q channel2 volume2).2.1).CHANNEL_REGISTERS =
        q.CHANNEL_REGISTERS) ∧
    (∀ q s, ((PT2258.mute q s).2.1).CHANNEL_REGISTERS = q.CHANNEL_REGISTERS) ∧
    ((p.channel_volume channel volume).2.2 =
      [.write p.PT2258_ADDR
        (Int.lor (CHANNEL_REGISTERS.getD channel.toNat (0, 0)).1 (att_split volume).1).toNat] ∨
     (p.channel_volume channel volume).2.2 =
      [.write p.PT2258_ADDR
        (Int.lor (CHANNEL_REGISTERS.getD channel.toNat (0, 0)).1 (att_split volume).1).toNat,
       .write p.PT2258_ADDR
        (Int.lor (CHANNEL_REGISTERS.getD channel.toNat (0, 0)).2 (att_split volume).2).toNat]) := by
  refine ⟨by decide, ?_, ?_, ?_, ?_, ?_⟩
  · intro bus address q ev h
    by_cases hmem : address ∈ ([0x8C, 0x88, 0x84, 0x80] : List Int)
    · rw [PT2258_init_some bus address hmem] at h
      unfold initialize_pt2258 at h
      split at h
      · split at h <;> simp_all
        rw [← h.1]
      · simp_all
    · rw [PT2258_init_illegal bus address hmem] at h
      simp_all
  · intro q volume2
    exact (master_volume_frame q volume2).2.2
  · intro q channel2 volume2
    exact (channel_volume_frame q channel2 volume2).2.2
  · intro q s
    exact (mute_frame q s).2.2
  · rw [← ht]
    exact channel_volume_trace p channel volume hc hv ht

/-- C4: with a legal address, construction sleeps 300 ms, then scans,
and only then touches the device: if the 7-bit address is absent the
constructor fails with the not-found error and never writes; if present,
the one and only initialization write is the clear instruction 0xC0. -/
theorem C4_initialization_sequence (bus : I2Cbus) (address : Int)
    (ha : address ∈ ([0x8C, 0x88, 0x84, 0x80] : List Int)) :
    ((address >>> 1) ∉ bus.scanResult →
      PT2258_init (some bus) address =
        (.error (.osError "PT2258 not found on the I2C bus."),
         [.sleepMs 300, .scan])) ∧
    ((address >>> 1) ∈ bus.scanResult →
      (PT2258_init (some bus) address).2 =
        [.sleepMs 300, .scan, .write (address >>> 1) 0xC0]) := by
  constructor
  · intro h
    rw [PT2258_init_some bus address ha]
    unfold initialize_pt2258
    split
    · rename_i hyes
      exact absurd hyes h
    · rfl
  · intro h
    rw [PT2258_init_some bus address ha]
    unfold initialize_pt2258
    split
    · cases hw : writePT2258
          { I2C := bus, PT2258_ADDR := address >>> 1,
            CHANNEL_REGISTERS := PT2258Spec.CHANNEL_REGISTERS, last_ack := 0 }
          CLEAR_REGISTER with
      | mk r e =>
        have he : e = [.write (address >>> 1) 0xC0] := by
          have h2 := writePT2258_trace
            { I2C := bus, PT2258_ADDR := address >>> 1,
              CHANNEL_REGISTERS := PT2258Spec.CHANNEL_REGISTERS, last_ack := 0 }
            CLEAR_REGISTER (by unfold CLEAR_REGISTER; omega)
          rw [hw] at h2
          exact h2
        cases r <;> simp [hw, he]
    · rename_i hno
      exact absurd h hno

/-- Witness for C4 at address 0x88 over `busOK` (device present) and a
bus without the device. -/
theorem C4_initialization_sequence_witness :
    ((0x88 : Int) ∈ ([0x8C, 0x88, 0x84, 0x80] : List Int)) ∧
    (((0x88 : Int) >>> 1) ∈ busOK.scanResult) ∧
    (PT2258_init (some busOK) 0x88).2 =
      [.sleepMs 300, .scan, .write ((0x88 : Int) >>> 1) 0xC0] :=
  ⟨by decide, by decide,
   (C4_initialization_sequence busOK 0x88 (by decide)).2 (by decide)⟩

/-- C5: an out-of-range master volume fails with `ValueError` and an
empty trace; an out-of-range channel or volume makes `channel_volume`
fail with `ValueError`, unchanged state and an empty trace, regardless of
the other argument. -/
theorem C5_invalid_arguments (p : PT2258) (volume channel : Int) :
    (¬(0 ≤ volume ∧ volume ≤ 79) →
      p.master_volume volume =
        (.error (.valueError "The master volume should be within the range of 0 to 79."),
         p, [])) ∧
    (¬(0 ≤ volume ∧ volume ≤ 79) ∨ ¬(0 ≤ channel ∧ channel ≤ 5) →
      isValueError (p.channel_volume channel volume).1 = true ∧
      (p.channel_volume channel volume).2.1 = p ∧
      (p.channel_volume channel volume).2.2 = []) := by
  constructor
  · intro h
    unfold PT2258.master_volume
    rw [if_neg h]
  · intro h
    unfold PT2258.channel_volume
    by_cases hv : 0 ≤ volume ∧ volume ≤ 79
    · have hch : ¬(0 ≤ channel ∧ channel ≤ 5) := by tauto
      rw [if_pos hv, if_neg hch]
      exact ⟨rfl, rfl, rfl⟩
    · rw [if_neg hv]
      exact ⟨rfl, rfl, rfl⟩

/-- Witness for C5 at volume 80 and channel 6. -/
theorem C5_invalid_arguments_witness :
    (¬(0 ≤ (80 : Int) ∧ (80 : Int) ≤ 79)) ∧
    p0.master_volume 80 =
      (.error (.valueError "The master volume should be within the range of 0 to 79."),
       p0, []) ∧
    (¬(0 ≤ (6 : Int) ∧ (6 : Int) ≤ 5)) ∧
    (isValueError (p0.channel_volume 6 40).1 = true ∧
     (p0.channel_volume 6 40).2.1 = p0 ∧
     (p0.channel_volume 6 40).2.2 = []) :=
  ⟨by decide, (C5_invalid_arguments p0 80 6).1 (by decide), by decide,
   (C5_invalid_arguments p0 40 6).2 (Or.inr (by decide))⟩

/-- C6: a missing bus handle (with any address, legal or not) or an
illegal address makes construction fail with `ValueError` and a fully
empty effect trace: no power-on delay, no scan, no write. -/
theorem C6_configuration_errors (bus : I2Cbus) (addressNone addressBad : Int)
    (ha : addressBad ∉ ([0x8C, 0x88, 0x84, 0x80] : List Int)) :
    PT2258_init none addressNone =
      (.error (.valueError "The port I2C object is required to initialize PT2258."), []) ∧
    PT2258_init (some bus) addressBad =
      (.error (.valueError "Invalid PT2258 device address. It should be 0x8C, 0x88, 0x84, or 0x80."),
       []) := by
  exact ⟨rfl, PT2258_init_illegal bus addressBad ha⟩

/-- Witness for C3: the table facts instantiated at channel 2, volume 40
on the concrete driver `p0`. -/
theorem C3_channel_registers_table_witness :
    (0 ≤ (2 : Int) ∧ (2 : Int) ≤ 5) ∧
    (0 ≤ (40 : Int) ∧ (40 : Int) ≤ 79) ∧
    p0.CHANNEL_REGISTERS = CHANNEL_REGISTERS ∧
    CHANNEL_REGISTERS =
      [((0x80 : Int), (0x90 : Int)), (0x40, 0x50), (0x00, 0x10),
       (0x20, 0x30), (0x60, 0x70), (0xA0, 0xB0)] ∧
    ((p0.channel_volume 2 40).2.2 =
      [.write p0.PT2258_ADDR
        (Int.lor (CHANNEL_REGISTERS.getD (2 : Int).toNat (0, 0)).1 (att_split 40).1).toNat] ∨
     (p0.channel_volume 2 40).2.2 =
      [.write p0.PT2258_ADDR
        (Int.lor (CHANNEL_REGISTERS.getD (2 : Int).toNat (0, 0)).1 (att_split 40).1).toNat,
       .write p0.PT2258_ADDR
        (Int.lor (CHANNEL_REGISTERS.getD (2 : Int).toNat (0, 0)).2 (att_split 40).2).toNat]) :=
  ⟨by decide, by decide, rfl,
   (C3_channel_registers_table p0 2 40 (by decide) (by decide) rfl).1,
   (C3_channel_registers_table p0 2 40 (by decide) (by decide) rfl).2.2.2.2.2⟩

/-- Witness for C6: a missing port with the legal default address 0x88,
and a present port with the illegal address 0x90. -/
theorem C6_configuration_errors_witness :
    ((0x90 : Int) ∉ ([0x8C, 0x88, 0x84, 0x80] : List Int)) ∧
    PT2258_init none 0x88 =
      (.error (.valueError "The port I2C object is required to initialize PT2258."), []) ∧
    PT2258_init (some busOK) 0x90 =
      (.error (.valueError "Invalid PT2258 device address. It should be 0x8C, 0x88, 0x84, or 0x80."),
       []) :=
  ⟨by decide, (C6_configuration_errors busOK 0x88 0x90 (by decide)).1,
   (C6_configuration_errors busOK 0x88 0x90 (by decide)).2⟩

/-- C7: with a genuine boolean, `mute` issues exactly one instruction
write — the single byte `0xF8 | (1 if enabled else 0)` — and returns its
acknowledgment on success; any non-boolean argument fails with
`ValueError` and no bus access. -/
theorem C7_mute (p : PT2258) (b : Bool) (n a : Int) :
    (p.mute (.pyBool b)).2.2 =
      [.write p.PT2258_ADDR (Int.lor MUTE_REGISTER (if b then 1 else 0)).toNat] ∧
    (p.I2C.writeResult p.PT2258_ADDR
        (Int.lor MUTE_REGISTER (if b then 1 else 0)).toNat = .ok a →
      p.mute (.pyBool b) =
        (.ok a, { p with last_ack := a },
         [.write p.PT2258_ADDR (Int.lor MUTE_REGISTER (if b then 1 else 0)).toNat])) ∧
    Int.lor MUTE_REGISTER (if b then 1 else 0) =
      MUTE_REGISTER + (if b then 1 else 0) ∧
    p.mute (.pyInt n) =
      (.error (.valueError "Invalid mute status value. It should be a boolean (True or False)."),
       p, []) := by
  refine ⟨mute_trace p b, ?_, by cases b <;> decide, rfl⟩
  intro hbus
  simp only [PT2258.mute]
  generalize hg : Int.lor MUTE_REGISTER (if b then 1 else 0) = w at hbus ⊢
  have hb := mute_bytes b
  rw [hg] at hb
  rw [writePT2258_ok p w a hb hbus]

/-- Witness for C7 on `p0` (acknowledgment 1) with `enabled = true` and
the non-boolean integer 1. -/
theorem C7_mute_witness :
    (p0.mute (.pyBool true)).2.2 =
      [.write p0.PT2258_ADDR (Int.lor MUTE_REGISTER (if true then 1 else 0)).toNat] ∧
    p0.I2C.writeResult p0.PT2258_ADDR
        (Int.lor MUTE_REGISTER (if true then 1 else 0)).toNat = .ok 1 ∧
    p0.mute (.pyBool true) =
      (.ok 1, { p0 with last_ack := 1 },
       [.write p0.PT2258_ADDR (Int.lor MUTE_REGISTER (if true then 1 else 0)).toNat]) ∧
    p0.mute (.pyInt 1) =
      (.error (.valueError "Invalid mute status value. It should be a boolean (True or False)."),
       p0, []) :=
  ⟨(C7_mute p0 true 1 1).1, by rfl,
   (C7_mute p0 true 1 1).2.1 (by rfl),
   (C7_mute p0 true 1 1).2.2.2⟩

/-- C8: the write primitive issues exactly one bus write of its byte to
the stored 7-bit address, returns the transaction acknowledgment on
success, and on a bus failure raises `RuntimeError` with the errno-5
("device not acknowledging") condition carrying a different message than
the generic failure. -/
theorem C8_write_primitive (p : PT2258) (wd a e : Int)
    (h : 0 ≤ wd ∧ wd < 256) :
    (writePT2258 p wd).2 = [.write p.PT2258_ADDR wd.toNat] ∧
    (p.I2C.writeResult p.PT2258_ADDR wd.toNat = .ok a →
      (writePT2258 p wd).1 = .ok a) ∧
    (p.I2C.writeResult p.PT2258_ADDR wd.toNat = .error e →
      (writePT2258 p wd).1 = .error (.runtimeError
        (if e = 5 then "Communication error with the PT2258 during the operation."
         else "Communication error with the PT2258. Error message: OSError"))) ∧
    ("Communication error with the PT2258 during the operation." ≠
      "Communication error with the PT2258. Error message: OSError") := by
  refine ⟨writePT2258_trace p wd h, ?_, ?_, by decide⟩
  · intro hw
    rw [writePT2258_ok p wd a h hw]
  · intro hw
    unfold writePT2258 bytesSingle
    rw [if_pos h]
    simp [hw]

/-- Witness for C8: the clear instruction on `p0` (acknowledged with 1)
and on `p0e` (bus raises errno 5). -/
theorem C8_write_primitive_witness :
    (0 ≤ (0xC0 : Int) ∧ (0xC0 : Int) < 256) ∧
    (writePT2258 p0 0xC0).2 = [.write p0.PT2258_ADDR (0xC0 : Int).toNat] ∧
    p0.I2C.writeResult p0.PT2258_ADDR (0xC0 : Int).toNat = .ok 1 ∧
    (writePT2258 p0 0xC0).1 = .ok 1 ∧
    p0e.I2C.writeResult p0e.PT2258_ADDR (0xC0 : Int).toNat = .error 5 ∧
    (writePT2258 p0e 0xC0).1 = .error (.runtimeError
      (if (5 : Int) = 5 then "Communication error with the PT2258 during the operation."
       else "Communication error with the PT2258. Error message: OSError")) :=
  ⟨by decide, (C8_write_primitive p0 0xC0 1 5 (by decide)).1, by rfl,
   (C8_write_primitive p0 0xC0 1 5 (by decide)).2.1 (by rfl), by rfl,
   (C8_write_primitive p0e 0xC0 1 5 (by decide)).2.2.1 (by rfl)⟩

/-- C9 counterexample: on a bus that acknowledges every write with 7,
construction performs the clear-register instruction write, whose
acknowledgment is 7, yet the stored last-transaction-result of the
constructed driver is still 0 — so the last-result value is NOT
overwritten on every instruction write. -/
theorem C9_counterexample_init_write :
    busAck7.writeResult 0x44 0xC0 = .ok 7 ∧
    PT2258_init (some busAck7) 0x88 =
      (.ok { I2C := busAck7, PT2258_ADDR := 0x44,
             CHANNEL_REGISTERS := CHANNEL_REGISTERS, last_ack := 0 },
       [.sleepMs 300, .scan, .write 0x44 0xC0]) ∧
    (0 : Int) ≠ 7 :=
  ⟨rfl, by rfl, by decide⟩

/-- C9 as amended: the last-transaction-result is overwritten on the
instruction writes of the volume and mute operations and equals the value
each completed operation returns; the initialization write's
acknowledgment, however, is discarded, and a freshly constructed driver
carries last result 0. -/
theorem C9_last_result (p : PT2258) :
    (∀ volume a q ev, p.master_volume volume = (.ok a, q, ev) → q.last_ack = a) ∧
    (∀ channel volume a q ev,
      p.channel_volume channel volume = (.ok a, q, ev) → q.last_ack = a) ∧
    (∀ s a q ev, p.mute s = (.ok a, q, ev) → q.last_ack = a) ∧
    (∀ bus address q ev, PT2258_init (some bus) address = (.ok q, ev) →
      q.last_ack = 0) := by
  refine ⟨?_, ?_, ?_, ?_⟩
  · intro volume a q ev h
    unfold PT2258.master_volume at h
    repeat' split at h
    all_goals simp_all
    all_goals rw [← h.2.1]
    all_goals exact h.1
  · intro channel volume a q ev h
    unfold PT2258.channel_volume at h
    repeat' split at h
    all_goals simp_all
    all_goals rw [← h.2.1]
    all_goals exact h.1
  · intro s a q ev h
    unfold PT2258.mute at h
    repeat' split at h
    all_goals simp_all
    all_goals rw [← h.2.1]
    all_goals exact h.1
  · intro bus address q ev h
    by_cases hmem : address ∈ ([0x8C, 0x88, 0x84, 0x80] : List Int)
    · rw [PT2258_init_some bus address hmem] at h
      unfold initialize_pt2258 at h
      split at h
      · split at h <;> simp_all
        rw [← h.1]
      · simp_all
    · rw [PT2258_init_illegal bus address hmem] at h
      simp_all

/-- Witness for C9 as amended: concrete completed operations on `p0` and
a concrete construction over `busAck7`. -/
theorem C9_last_result_witness :
    p0.master_volume 40 =
      (.ok 1, { p0 with last_ack := (1 : Int) },
       [.write 0x44 0xD3, .write 0x44 0xE9]) ∧
    ({ p0 with last_ack := (1 : Int) }).last_ack = 1 ∧
    PT2258_init (some busAck7) 0x88 =
      (.ok { I2C := busAck7, PT2258_ADDR := 0x44,
             CHANNEL_REGISTERS := CHANNEL_REGISTERS, last_ack := 0 },
       [.sleepMs 300, .scan, .write 0x44 0xC0]) ∧
    ({ I2C := busAck7, PT2258_ADDR := 0x44,
       CHANNEL_REGISTERS := CHANNEL_REGISTERS, last_ack := (0 : Int) } : PT2258).last_ack = 0 :=
  ⟨by rfl, (C9_last_result p0).1 40 1 { p0 with last_ack := 1 }
     [.write 0x44 0xD3, .write 0x44 0xE9] (by rfl),
   by rfl, (C9_last_result p0).2.2.2 busAck7 0x88
     { I2C := busAck7, PT2258_ADDR := 0x44,
       CHANNEL_REGISTERS := CHANNEL_REGISTERS, last_ack := 0 }
     [.sleepMs 300, .scan, .write 0x44 0xC0] (by rfl)⟩

/-- C10: under each operation's precondition, every byte handed to the
bus-write primitive is in [0, 255], so the single-byte encoding
(`bytes([x])`) never fails: no operation can produce the encoder's
`ValueError`. -/
theorem C10_bytes_in_range (p : PT2258) (bus : I2Cbus)
    (address volume channel : Int) (b : Bool)
    (ha : address ∈ ([0x8C, 0x88, 0x84, 0x80] : List Int))
    (hv : 0 ≤ volume ∧ volume ≤ 79) (hc : 0 ≤ channel ∧ channel ≤ 5)
    (ht : p.CHANNEL_REGISTERS = CHANNEL_REGISTERS) :
    (∀ a2 b2, BusEvent.write a2 b2 ∈ (PT2258_init (some bus) address).2 → b2 < 256) ∧
    (∀ m, (PT2258_init (some bus) address).1 ≠ .error (.valueError m)) ∧
    (∀ a2 b2, BusEvent.write a2 b2 ∈ (p.master_volume volume).2.2 → b2 < 256) ∧
    (∀ m, (p.master_volume volume).1 ≠ .error (.valueError m)) ∧
    (∀ a2 b2, BusEvent.write a2 b2 ∈ (p.channel_volume channel volume).2.2 → b2 < 256) ∧
    (∀ m, (p.channel_volume channel volume).1 ≠ .error (.valueError m)) ∧
    (∀ a2 b2, BusEvent.write a2 b2 ∈ (p.mute (.pyBool b)).2.2 → b2 < 256) ∧
    (∀ m, (p.mute (.pyBool b)).1 ≠ .error (.valueError m)) := by
  have hmb := master_volume_bytes volume hv
  have hcb := table_bytes channel volume hc hv
  rw [← ht] at hcb
  have hub := mute_bytes b
  refine ⟨?_, (init_trace bus address ha).2, ?_, master_volume_no_valueError p volume hv,
    ?_, channel_volume_no_valueError p channel volume hc hv ht,
    ?_, mute_no_valueError p b⟩
  · intro a2 b2 hmemb
    rcases (init_trace bus address ha).1 with h | h <;> rw [h] at hmemb <;>
      simp at hmemb
    omega
  · intro a2 b2 hmemb
    rcases master_volume_trace p volume hv with h | h <;> rw [h] at hmemb <;>
      simp at hmemb
    · omega
    · rcases hmemb with ⟨-, h2⟩ | ⟨-, h2⟩ <;> omega
  · intro a2 b2 hmemb
    rcases channel_volume_trace p channel volume hc hv ht with h | h <;>
      rw [h] at hmemb <;>
      simp only [List.mem_cons, List.mem_singleton, List.not_mem_nil, or_false,
        BusEvent.write.injEq] at hmemb
    · obtain ⟨-, h2⟩ := hmemb
      omega
    · rcases hmemb with ⟨-, h2⟩ | ⟨-, h2⟩ <;> omega
  · intro a2 b2 hmemb
    rw [mute_trace p b] at hmemb
    simp at hmemb
    omega

/-- Witness for C10: instantiated on `p0` over `busOK` at address 0x88,
volume 40, channel 2, mute true, with the concrete initialization write
event. -/
theorem C10_bytes_in_range_witness :
    ((0x88 : Int) ∈ ([0x8C, 0x88, 0x84, 0x80] : List Int)) ∧
    (0 ≤ (40 : Int) ∧ (40 : Int) ≤ 79) ∧
    (0 ≤ (2 : Int) ∧ (2 : Int) ≤ 5) ∧
    p0.CHANNEL_REGISTERS = CHANNEL_REGISTERS ∧
    (BusEvent.write 0x44 0xC0 ∈ (PT2258_init (some busOK) 0x88).2 → (0xC0 : Nat) < 256) ∧
    ((PT2258_init (some busOK) 0x88).1 ≠ .error (.valueError "bytes must be in range(0, 256)")) ∧
    ((p0.master_volume 40).1 ≠ .error (.valueError "bytes must be in range(0, 256)")) :=
  ⟨by decide, by decide, by decide, rfl,
   (C10_bytes_in_range p0 busOK 0x88 40 2 true (by decide) (by decide) (by decide) rfl).1
     0x44 0xC0,
   (C10_bytes_in_range p0 busOK 0x88 40 2 true (by decide) (by decide) (by decide) rfl).2.1 _,
   (C10_bytes_in_range p0 busOK 0x88 40 2 true (by decide) (by decide) (by decide) rfl).2.2.2.1 _⟩

end PT2258Spec
